import Mathlib

/-!
# WashCall service worker: `firebase-messaging-sw.js`

A shallow embedding of the two callbacks the script registers:

* the `messaging.onBackgroundMessage` callback (source lines 20-34), which turns a
  push payload into one `showNotification` call;
* the `notificationclick` listener (source lines 37-60), which closes the clicked
  notification, reads the target path from its data, enumerates the window
  clients and focuses one of them or opens a new window.

JavaScript values are modelled by the shapes the payload documentation gives:
an optional field is an `Option`, a field value is a `String`, the data mapping
is an association list from keys to string values.  Platform calls are recorded
in a trace, in program order.
-/

namespace WashCall

/-! ## JavaScript values and operators -/

/-- The data mapping of a payload or a notification: string keys, string values. -/
abbrev DataMap := List (String × String)

/-- Errors a handler can throw. -/
inductive JSError where
  | typeError (detail : String)
  deriving DecidableEq, Repr

/-- Property read `obj.key` on a data mapping: `undefined` (here `none`) when the
key is not in the mapping. -/
def DataMap.prop (obj : DataMap) (key : String) : Option String :=
  obj.lookup key

/-- Plain member access `base.key`, where `base` may be `null` or `undefined`
(here `none`): reading a property of `null` or `undefined` throws a `TypeError`. -/
def member (base : Option DataMap) (key : String) : Except JSError (Option String) :=
  match base with
  | none => .error (.typeError ("Cannot read properties of null (reading " ++ key ++ ")"))
  | some obj => .ok (obj.prop key)

/-- Optional chaining `base?.key`: `undefined` when `base` is `null` or
`undefined`, the property read otherwise.  It never throws. -/
def optMember (base : Option DataMap) (key : String) : Option String :=
  match base with
  | none => none
  | some obj => obj.prop key

/-- Truthiness of a string-or-undefined value: `undefined` and the empty string
are falsy, every other string is truthy. -/
def truthy : Option String → Bool
  | none => false
  | some s => !(s == "")

/-- The operator `value || fallback` on a string-or-undefined left operand and a
string right operand: the left operand when it is truthy, the right operand
otherwise. -/
def orString (value : Option String) (fallback : String) : String :=
  match value with
  | some s => if truthy (some s) then s else fallback
  | none => fallback

/-- The operator `value || {}` on a mapping-or-undefined left operand: an object
is always truthy, `undefined` and `null` are falsy. -/
def orEmptyObject (value : Option DataMap) : DataMap :=
  match value with
  | some obj => obj
  | none => []

/-- The method `String.prototype.includes`, `s.includes(search)`: whether
`search` occurs in `s` as a contiguous run of characters. -/
def includes (s search : String) : Bool :=
  decide (search.data <:+: s.data)

/-! ## Data model -/

/-- The notification block of a push payload: `{ title?, body? }`. -/
structure NotificationPayload where
  title : Option String
  body : Option String
  deriving DecidableEq, Repr

/-- The push payload: `{ notification?: { title?, body? }, data?: { [key]: string } }`. -/
structure Payload where
  notification : Option NotificationPayload
  data : Option DataMap
  deriving DecidableEq, Repr

/-- The options structure passed to `showNotification` (source lines 24-31). -/
structure NotificationOptions where
  body : String
  icon : String
  badge : String
  data : DataMap
  tag : String
  requireInteraction : Bool
  deriving DecidableEq, Repr

/-- A client window handle as the click handler sees it: its URL and whether the
test `'focus' in client` succeeds. -/
structure WindowClient where
  url : String
  hasFocus : Bool
  deriving DecidableEq, Repr

/-- The clicked notification as the click handler reads it: `event.notification.data`,
`none` standing for `null` (no data was attached). -/
structure ClickEvent where
  data : Option DataMap
  deriving DecidableEq, Repr

/-- A call the script makes on the platform.  A window client is named by its
position in the list `clients.matchAll` resolved to. -/
inductive PlatformCall where
  | consoleLog (label : String)
  | showNotification (title : String) (options : NotificationOptions)
  | closeNotification
  | matchAll (type : String) (includeUncontrolled : Bool)
  | focus (index : Nat)
  | openWindow (url : String)
  deriving DecidableEq, Repr

/-- One run of a handler: the platform calls it made, in order, and how it ended
(the value it returned, or the error it threw). -/
structure HandlerRun (ρ : Type) where
  calls : List PlatformCall
  result : Except JSError ρ

/-- The `showNotification` calls of a trace, in order. -/
def shownNotifications : List PlatformCall → List (String × NotificationOptions)
  | [] => []
  | .showNotification title options :: rest => (title, options) :: shownNotifications rest
  | _ :: rest => shownNotifications rest

/-- The window actions of a trace (focus and open-window calls), in order. -/
def windowActions : List PlatformCall → List PlatformCall
  | [] => []
  | .focus index :: rest => .focus index :: windowActions rest
  | .openWindow url :: rest => .openWindow url :: windowActions rest
  | _ :: rest => windowActions rest

/-! ## Background message handler (source lines 20-34) -/

/-- Source line 23: `payload.notification?.title || '알림'`. -/
def notificationTitle (payload : Payload) : String :=
  orString (payload.notification.bind (·.title)) "알림"

/-- Source lines 24-31: the options literal. -/
def notificationOptions (payload : Payload) : NotificationOptions :=
  { body := orString (payload.notification.bind (·.body)) ""
    icon := "/icon.png"
    badge := "/badge.png"
    data := orEmptyObject payload.data
    tag := orString (optMember payload.data "machine_id") "default"
    requireInteraction := true }

/-- The `onBackgroundMessage` callback.  `showNotification` is the platform
operation `self.registration.showNotification`; the callback returns what that
operation returns. -/
def onBackgroundMessage {ρ : Type} (showNotification : String → NotificationOptions → ρ)
    (payload : Payload) : HandlerRun ρ :=
  { calls := [.consoleLog "[firebase-messaging-sw.js] 백그라운드 메시지 수신:",
              .showNotification (notificationTitle payload) (notificationOptions payload)]
    result := .ok (showNotification (notificationTitle payload) (notificationOptions payload)) }

/-! ## Notification click handler (source lines 37-60) -/

/-- Source lines 42-43: `data.click_action || '/'`, with `data` the clicked
notification's data. -/
def clickAction (event : ClickEvent) : Except JSError String :=
  match member event.data "click_action" with
  | .error e => .error e
  | .ok value => .ok (orString value "/")

/-- Source lines 49-53: the `for ... of` loop with its early return.  The result
is the position of the client whose `focus()` is called, `none` when the loop
runs to its end.  `index` is the position of the head of the remaining list. -/
def focusScan (clickAction : String) : List WindowClient → Nat → Option Nat
  | [], _ => none
  | client :: rest, index =>
    if includes client.url clickAction && client.hasFocus then some index
    else focusScan clickAction rest (index + 1)

/-- Source lines 47-58: the callback given to `.then`, run on the list
`clients.matchAll` resolved to.  `openWindowSupported` is the truthiness of
`clients.openWindow`.  The result is the calls the callback makes. -/
def onClientList (openWindowSupported : Bool) (clickAction : String)
    (clientList : List WindowClient) : HandlerRun Unit :=
  match focusScan clickAction clientList 0 with
  | some index => { calls := [.focus index], result := .ok () }
  | none =>
    if openWindowSupported then { calls := [.openWindow clickAction], result := .ok () }
    else { calls := [], result := .ok () }

/-- The `notificationclick` listener, together with the callback it chains on
`clients.matchAll`: `clientList` is the list that call resolves to. -/
def onNotificationClick (openWindowSupported : Bool) (clientList : List WindowClient)
    (event : ClickEvent) : HandlerRun Unit :=
  let opening := [PlatformCall.consoleLog "[firebase-messaging-sw.js] 알림 클릭:",
                  PlatformCall.closeNotification]
  match clickAction event with
  | .error e => { calls := opening, result := .error e }
  | .ok target =>
    let scan := onClientList openWindowSupported target clientList
    { calls := opening ++ [PlatformCall.matchAll "window" true] ++ scan.calls
      result := scan.result }

/-- The click event the platform delivers for a notification shown with the given
options: its data is the data the notification was shown with. -/
def clickEventOf (options : NotificationOptions) : ClickEvent :=
  { data := some options.data }

/-! ## Helper lemmas -/

theorem orString_none (fallback : String) : orString none fallback = fallback := rfl

theorem orString_empty (fallback : String) : orString (some "") fallback = fallback := rfl

theorem orString_of_ne_empty (s fallback : String) (h : s ≠ "") :
    orString (some s) fallback = s := by
  simp [orString, truthy, h]

/-- The loop is the library search for the first client passing the loop's test. -/
theorem focusScan_eq_findIdx? (target : String) (clients : List WindowClient) (index : Nat) :
    focusScan target clients index
      = clients.findIdx? (fun w => includes w.url target && w.hasFocus) index := by
  induction clients generalizing index with
  | nil => rfl
  | cons w rest ih =>
    simp only [focusScan, List.findIdx?_cons]
    split
    · rfl
    · exact ih (index + 1)

/-- The loop runs to its end when no client passes its test. -/
theorem focusScan_eq_none (target : String) (clients : List WindowClient) (index : Nat)
    (h : ∀ w ∈ clients, (includes w.url target && w.hasFocus) = false) :
    focusScan target clients index = none := by
  induction clients generalizing index with
  | nil => rfl
  | cons w rest ih =>
    have hw := h w (List.mem_cons_self w rest)
    have hrest : ∀ v ∈ rest, (includes v.url target && v.hasFocus) = false :=
      fun v hv => h v (List.mem_cons_of_mem w hv)
    simp only [focusScan, hw]
    exact ih (index + 1) hrest

/-- When the first client whose URL contains the target has the focus capability,
the loop stops at that client. -/
theorem focusScan_of_find? (target : String) (clients : List WindowClient) (index : Nat)
    (c : WindowClient)
    (hfind : clients.find? (fun w => includes w.url target) = some c)
    (hfocus : c.hasFocus = true) :
    focusScan target clients index
      = some (clients.findIdx (fun w => includes w.url target) + index) := by
  induction clients generalizing index with
  | nil => simp at hfind
  | cons w rest ih =>
    by_cases hw : includes w.url target = true
    · have hc : w = c := by simpa [List.find?_cons, hw] using hfind
      subst hc
      simp [focusScan, List.findIdx_cons, hw, hfocus]
    · have hw2 : includes w.url target = false := by simpa using hw
      have hrest : rest.find? (fun v => includes v.url target) = some c := by
        simpa [List.find?_cons, hw2] using hfind
      simp only [focusScan, hw2, Bool.false_and, List.findIdx_cons, cond_false]
      rw [ih (index + 1) hrest]
      simp only [Bool.false_eq_true, if_false]
      congr 1
      omega

/-- Clients without the focus capability in front of the list do not stop the
loop: it goes on with the clients behind them. -/
theorem focusScan_skip (target : String) (skipped clients : List WindowClient) (index : Nat)
    (h : ∀ w ∈ skipped, w.hasFocus = false) :
    focusScan target (skipped ++ clients) index
      = focusScan target clients (index + skipped.length) := by
  induction skipped generalizing index with
  | nil => rfl
  | cons w rest ih =>
    have hw : w.hasFocus = false := h w (List.mem_cons_self w rest)
    have hrest : ∀ v ∈ rest, v.hasFocus = false := fun v hv => h v (List.mem_cons_of_mem w hv)
    have hstep : focusScan target (w :: (rest ++ clients)) index
        = focusScan target (rest ++ clients) (index + 1) := by
      simp [focusScan, hw]
    rw [List.cons_append, hstep, ih (index + 1) hrest, List.length_cons]
    congr 1
    omega

/-- The listener, once the target has been read: the opening calls, the
enumeration, then the calls of the callback. -/
theorem onNotificationClick_of_target (openWindowSupported : Bool)
    (clientList : List WindowClient) (event : ClickEvent) (target : String)
    (h : clickAction event = .ok target) :
    onNotificationClick openWindowSupported clientList event
      = { calls := [PlatformCall.consoleLog "[firebase-messaging-sw.js] 알림 클릭:",
                    PlatformCall.closeNotification,
                    PlatformCall.matchAll "window" true]
                   ++ (onClientList openWindowSupported target clientList).calls
          result := (onClientList openWindowSupported target clientList).result } := by
  simp [onNotificationClick, h]

/-- The callback never throws. -/
theorem onClientList_result (openWindowSupported : Bool) (target : String)
    (clientList : List WindowClient) :
    (onClientList openWindowSupported target clientList).result = .ok () := by
  unfold onClientList
  split
  · rfl
  · split <;> rfl

/-- The callback focuses the first client passing the loop's test. -/
theorem onClientList_calls_of_some (openWindowSupported : Bool) (target : String)
    (clients : List WindowClient) (i : Nat)
    (h : clients.findIdx? (fun w => includes w.url target && w.hasFocus) = some i) :
    (onClientList openWindowSupported target clients).calls = [PlatformCall.focus i] := by
  have hscan : focusScan target clients 0 = some i := by
    rw [focusScan_eq_findIdx?]; exact h
  simp [onClientList, hscan]

/-- The callback takes the open-window branch when no client passes the loop's test. -/
theorem onClientList_calls_of_none (openWindowSupported : Bool) (target : String)
    (clients : List WindowClient)
    (h : clients.findIdx? (fun w => includes w.url target && w.hasFocus) = none) :
    (onClientList openWindowSupported target clients).calls
      = if openWindowSupported then [PlatformCall.openWindow target] else [] := by
  have hscan : focusScan target clients 0 = none := by
    rw [focusScan_eq_findIdx?]; exact h
  cases openWindowSupported <;> simp [onClientList, hscan]

/-- No client passes the loop's test when every client whose URL contains the
target lacks the focus capability. -/
theorem findIdx?_both_eq_none (target : String) (clients : List WindowClient)
    (h : ∀ w ∈ clients, includes w.url target = true → w.hasFocus = false) :
    clients.findIdx? (fun w => includes w.url target && w.hasFocus) = none := by
  rw [← focusScan_eq_findIdx?]
  apply focusScan_eq_none
  intro w hw
  cases hu : includes w.url target
  · rfl
  · simp [h w hw hu]

/-- The whole trace of the listener when some client passes the loop's test. -/
theorem onNotificationClick_calls_of_some (openWindowSupported : Bool)
    (clients : List WindowClient) (event : ClickEvent) (target : String) (i : Nat)
    (ht : clickAction event = .ok target)
    (h : clients.findIdx? (fun w => includes w.url target && w.hasFocus) = some i) :
    (onNotificationClick openWindowSupported clients event).calls
      = [PlatformCall.consoleLog "[firebase-messaging-sw.js] 알림 클릭:",
         PlatformCall.closeNotification,
         PlatformCall.matchAll "window" true,
         PlatformCall.focus i] := by
  rw [onNotificationClick_of_target _ _ _ _ ht, onClientList_calls_of_some _ _ _ _ h]
  rfl

/-- The whole trace of the listener when no client passes the loop's test. -/
theorem onNotificationClick_calls_of_none (openWindowSupported : Bool)
    (clients : List WindowClient) (event : ClickEvent) (target : String)
    (ht : clickAction event = .ok target)
    (h : clients.findIdx? (fun w => includes w.url target && w.hasFocus) = none) :
    (onNotificationClick openWindowSupported clients event).calls
      = [PlatformCall.consoleLog "[firebase-messaging-sw.js] 알림 클릭:",
         PlatformCall.closeNotification,
         PlatformCall.matchAll "window" true]
        ++ (if openWindowSupported then [PlatformCall.openWindow target] else []) := by
  rw [onNotificationClick_of_target _ _ _ _ ht, onClientList_calls_of_none _ _ _ h]

/-! ## Notification click handler: matching, fallback, capabilities -/

/-- C1, as stated, fails.  With target `/machines/3` and two windows whose URLs
both contain it, the first without the focus capability and the second with it,
the first handle whose URL contains the target is handle 0, yet the callback
focuses handle 1; and with the unfocusable window alone and window opening
supported, the callback opens a new window although a URL contains the target. -/
theorem click_first_url_match_counterexample :
    List.findIdx (fun w => includes w.url "/machines/3")
        [WindowClient.mk "https://app.example/machines/3" false,
         WindowClient.mk "https://app.example/machines/3/log" true] = 0
    ∧ (onClientList true "/machines/3"
        [WindowClient.mk "https://app.example/machines/3" false,
         WindowClient.mk "https://app.example/machines/3/log" true]).calls
        = [PlatformCall.focus 1]
    ∧ includes "https://app.example/machines/3" "/machines/3" = true
    ∧ (onClientList true "/machines/3"
        [WindowClient.mk "https://app.example/machines/3" false]).calls
        = [PlatformCall.openWindow "/machines/3"] := by
  refine ⟨?_, ?_, ?_, ?_⟩ <;> decide

/-- C1, amended: for every target path and every list of window handles in which
some handle's URL contains the target path and the first such handle has the
focus capability, the callback focuses exactly that handle (the only call it
makes, so no later handle is focused and no window is opened), and the whole
listener makes no other window action. -/
theorem click_focuses_first_url_match (openWindowSupported : Bool) (target : String)
    (clients : List WindowClient) (c : WindowClient)
    (hfind : clients.find? (fun w => includes w.url target) = some c)
    (hfocus : c.hasFocus = true) :
    (onClientList openWindowSupported target clients).calls
        = [PlatformCall.focus (clients.findIdx (fun w => includes w.url target))]
    ∧ (onClientList openWindowSupported target clients).result = .ok ()
    ∧ ∀ event, clickAction event = .ok target →
        windowActions (onNotificationClick openWindowSupported clients event).calls
          = [PlatformCall.focus (clients.findIdx (fun w => includes w.url target))] := by
  have hscan := focusScan_of_find? target clients 0 c hfind hfocus
  have hcalls : (onClientList openWindowSupported target clients).calls
      = [PlatformCall.focus (clients.findIdx (fun w => includes w.url target))] := by
    simp [onClientList, hscan]
  refine ⟨hcalls, onClientList_result _ _ _, ?_⟩
  intro event hevent
  rw [onNotificationClick_of_target _ _ _ _ hevent, hcalls]
  rfl

/-- Witness for C1: a window at another page, then a focusable window at the
target page, then a second focusable window at the target page: handle 1 is focused. -/
theorem click_focuses_first_url_match_witness :
    (onClientList true "/machines/3"
        [WindowClient.mk "https://app.example/home" true,
         WindowClient.mk "https://app.example/machines/3" true,
         WindowClient.mk "https://app.example/machines/3" true]).calls
      = [PlatformCall.focus 1] :=
  (click_focuses_first_url_match true "/machines/3"
    [WindowClient.mk "https://app.example/home" true,
     WindowClient.mk "https://app.example/machines/3" true,
     WindowClient.mk "https://app.example/machines/3" true]
    (WindowClient.mk "https://app.example/machines/3" true) (by decide) rfl).1

/-- C2: for every target path and every list of window handles none of whose
URLs contains the target path, when window opening is supported the callback
makes exactly one call, `openWindow` at the target path, and the listener as a
whole performs that one window action and no focus. -/
theorem click_opens_window_when_no_match (target : String) (clients : List WindowClient)
    (hnone : ∀ w ∈ clients, includes w.url target = false) :
    (onClientList true target clients).calls = [PlatformCall.openWindow target]
    ∧ (onClientList true target clients).result = .ok ()
    ∧ ∀ event, clickAction event = .ok target →
        (onNotificationClick true clients event).calls
          = [PlatformCall.consoleLog "[firebase-messaging-sw.js] 알림 클릭:",
             PlatformCall.closeNotification,
             PlatformCall.matchAll "window" true,
             PlatformCall.openWindow target]
        ∧ windowActions (onNotificationClick true clients event).calls
          = [PlatformCall.openWindow target] := by
  have hscan : focusScan target clients 0 = none :=
    focusScan_eq_none target clients 0 (fun w hw => by simp [hnone w hw])
  have hcalls : (onClientList true target clients).calls = [PlatformCall.openWindow target] := by
    simp [onClientList, hscan]
  refine ⟨hcalls, onClientList_result _ _ _, ?_⟩
  intro event hevent
  rw [onNotificationClick_of_target _ _ _ _ hevent, hcalls]
  exact ⟨rfl, rfl⟩

/-- Witness for C2: one window at another page, target `/machines/3`. -/
theorem click_opens_window_when_no_match_witness :
    (onClientList true "/machines/3"
        [WindowClient.mk "https://app.example/home" true]).calls
      = [PlatformCall.openWindow "/machines/3"] :=
  (click_opens_window_when_no_match "/machines/3"
    [WindowClient.mk "https://app.example/home" true] (by decide)).1

/-- C3: for every target path and every list of window handles none of whose
URLs contains the target path, when window opening is unsupported the callback
makes no call and ends normally, and the listener as a whole performs no window
action and throws nothing. -/
theorem click_no_action_without_open_window (target : String) (clients : List WindowClient)
    (hnone : ∀ w ∈ clients, includes w.url target = false) :
    (onClientList false target clients).calls = []
    ∧ (onClientList false target clients).result = .ok ()
    ∧ ∀ event, clickAction event = .ok target →
        windowActions (onNotificationClick false clients event).calls = []
        ∧ (onNotificationClick false clients event).result = .ok () := by
  have hscan : focusScan target clients 0 = none :=
    focusScan_eq_none target clients 0 (fun w hw => by simp [hnone w hw])
  have hcalls : (onClientList false target clients).calls = [] := by
    simp [onClientList, hscan]
  refine ⟨hcalls, onClientList_result _ _ _, ?_⟩
  intro event hevent
  rw [onNotificationClick_of_target _ _ _ _ hevent, hcalls]
  exact ⟨rfl, onClientList_result _ _ _⟩

/-- Witness for C3: one window at another page, target `/machines/3`, no
`openWindow` on the platform. -/
theorem click_no_action_without_open_window_witness :
    (onClientList false "/machines/3"
        [WindowClient.mk "https://app.example/home" true]).calls = []
    ∧ (onClientList false "/machines/3"
        [WindowClient.mk "https://app.example/home" true]).result = .ok () :=
  ⟨(click_no_action_without_open_window "/machines/3"
      [WindowClient.mk "https://app.example/home" true] (by decide)).1,
   (click_no_action_without_open_window "/machines/3"
      [WindowClient.mk "https://app.example/home" true] (by decide)).2.1⟩

/-- C10: a handle whose URL contains the target path but which lacks the focus
capability is skipped: a run of such handles in front of the list only shifts
the scan; the handle focused is the first one that both contains the target path
and has the focus capability; and when no handle satisfies both, the handler
takes the open-window fallback, also when some URL contains the target path.
Stated for the callback and for the whole trace of the listener, on every click
event whose target is read. -/
theorem click_scan_requires_focus_capability (openWindowSupported : Bool) (target : String)
    (clients : List WindowClient) :
    (∀ skipped : List WindowClient, (∀ w ∈ skipped, w.hasFocus = false) →
        focusScan target (skipped ++ clients) 0 = focusScan target clients skipped.length)
    ∧ (∀ i, clients.findIdx? (fun w => includes w.url target && w.hasFocus) = some i →
        (onClientList openWindowSupported target clients).calls = [PlatformCall.focus i])
    ∧ ((∀ w ∈ clients, includes w.url target = true → w.hasFocus = false) →
        (onClientList openWindowSupported target clients).calls
          = if openWindowSupported then [PlatformCall.openWindow target] else [])
    ∧ (∀ event, clickAction event = .ok target →
        (∀ i, clients.findIdx? (fun w => includes w.url target && w.hasFocus) = some i →
          (onNotificationClick openWindowSupported clients event).calls
            = [PlatformCall.consoleLog "[firebase-messaging-sw.js] 알림 클릭:",
               PlatformCall.closeNotification,
               PlatformCall.matchAll "window" true,
               PlatformCall.focus i])
        ∧ ((∀ w ∈ clients, includes w.url target = true → w.hasFocus = false) →
          (onNotificationClick openWindowSupported clients event).calls
            = [PlatformCall.consoleLog "[firebase-messaging-sw.js] 알림 클릭:",
               PlatformCall.closeNotification,
               PlatformCall.matchAll "window" true]
              ++ (if openWindowSupported then [PlatformCall.openWindow target] else []))
        ∧ (onNotificationClick openWindowSupported clients event).result = .ok ()) := by
  refine ⟨?_, ?_, ?_, ?_⟩
  · intro skipped hskipped
    have h := focusScan_skip target skipped clients 0 hskipped
    simpa using h
  · intro i hi
    exact onClientList_calls_of_some _ _ _ _ hi
  · intro hall
    exact onClientList_calls_of_none _ _ _ (findIdx?_both_eq_none target clients hall)
  · intro event hevent
    refine ⟨?_, ?_, ?_⟩
    · intro i hi
      exact onNotificationClick_calls_of_some _ _ _ _ _ hevent hi
    · intro hall
      exact onNotificationClick_calls_of_none _ _ _ _ hevent
        (findIdx?_both_eq_none target clients hall)
    · rw [onNotificationClick_of_target _ _ _ _ hevent]
      exact onClientList_result _ _ _

/-- Witness for C10, on the click of a notification whose `click_action` is
`/machines/3`: an unfocusable window at the target page followed by a focusable
one: the listener focuses handle 1; the unfocusable window alone, with window
opening supported: the listener opens a new window at the target. -/
theorem click_scan_requires_focus_capability_witness :
    (onClientList true "/machines/3"
        [WindowClient.mk "https://app.example/machines/3" false,
         WindowClient.mk "https://app.example/machines/3" true]).calls
      = [PlatformCall.focus 1]
    ∧ (onNotificationClick true
        [WindowClient.mk "https://app.example/machines/3" false,
         WindowClient.mk "https://app.example/machines/3" true]
        (ClickEvent.mk (some [("click_action", "/machines/3")]))).calls
      = [PlatformCall.consoleLog "[firebase-messaging-sw.js] 알림 클릭:",
         PlatformCall.closeNotification,
         PlatformCall.matchAll "window" true,
         PlatformCall.focus 1]
    ∧ (onNotificationClick true
        [WindowClient.mk "https://app.example/machines/3" false]
        (ClickEvent.mk (some [("click_action", "/machines/3")]))).calls
      = [PlatformCall.consoleLog "[firebase-messaging-sw.js] 알림 클릭:",
         PlatformCall.closeNotification,
         PlatformCall.matchAll "window" true,
         PlatformCall.openWindow "/machines/3"] :=
  ⟨(click_scan_requires_focus_capability true "/machines/3"
      [WindowClient.mk "https://app.example/machines/3" false,
       WindowClient.mk "https://app.example/machines/3" true]).2.1 1 (by decide),
   ((click_scan_requires_focus_capability true "/machines/3"
      [WindowClient.mk "https://app.example/machines/3" false,
       WindowClient.mk "https://app.example/machines/3" true]).2.2.2
      (ClickEvent.mk (some [("click_action", "/machines/3")])) rfl).1 1 (by decide),
   (((click_scan_requires_focus_capability true "/machines/3"
      [WindowClient.mk "https://app.example/machines/3" false]).2.2.2
      (ClickEvent.mk (some [("click_action", "/machines/3")])) rfl).2.1 (by decide)).trans rfl⟩

/-! ## Notification click handler: target extraction -/

/-- C4, as stated, fails.  A clicked notification whose data has `click_action`
present with the empty string as its value: the target is `/`, not the field,
and with no window open the listener opens a window at `/`. -/
theorem click_target_counterexample :
    DataMap.prop [("click_action", "")] "click_action" = some ""
    ∧ clickAction (ClickEvent.mk (some [("click_action", "")])) = .ok "/"
    ∧ clickAction (ClickEvent.mk (some [("click_action", "")])) ≠ .ok ""
    ∧ windowActions
        (onNotificationClick true [] (ClickEvent.mk (some [("click_action", "")]))).calls
        = [PlatformCall.openWindow "/"] := by
  have htarget : clickAction (ClickEvent.mk (some [("click_action", "")])) = .ok "/" := rfl
  refine ⟨by decide, htarget, ?_, by decide⟩
  rw [htarget]
  intro h
  exact absurd (Except.ok.inj h) (by decide)

/-- C4, amended: for every clicked notification whose attached data is a mapping,
the target path used for matching and opening equals the `click_action` field
when that field is present and not the empty string, and equals `/` when the
field is absent or the empty string; in all these cases the listener throws
nothing. -/
theorem click_target_extraction (data : DataMap) (openWindowSupported : Bool)
    (clients : List WindowClient) :
    (∀ t, data.prop "click_action" = some t → t ≠ "" →
        clickAction (ClickEvent.mk (some data)) = .ok t
        ∧ (onNotificationClick openWindowSupported clients (ClickEvent.mk (some data))).calls
          = [PlatformCall.consoleLog "[firebase-messaging-sw.js] 알림 클릭:",
             PlatformCall.closeNotification,
             PlatformCall.matchAll "window" true]
            ++ (onClientList openWindowSupported t clients).calls)
    ∧ ((data.prop "click_action" = none ∨ data.prop "click_action" = some "") →
        clickAction (ClickEvent.mk (some data)) = .ok "/"
        ∧ (onNotificationClick openWindowSupported clients (ClickEvent.mk (some data))).calls
          = [PlatformCall.consoleLog "[firebase-messaging-sw.js] 알림 클릭:",
             PlatformCall.closeNotification,
             PlatformCall.matchAll "window" true]
            ++ (onClientList openWindowSupported "/" clients).calls)
    ∧ (onNotificationClick openWindowSupported clients (ClickEvent.mk (some data))).result
        = .ok () := by
  refine ⟨?_, ?_, ?_⟩
  · intro t ht hne
    have htarget : clickAction (ClickEvent.mk (some data)) = .ok t := by
      simp [clickAction, member, ht, orString_of_ne_empty t "/" hne]
    exact ⟨htarget, by rw [onNotificationClick_of_target _ _ _ _ htarget]⟩
  · intro h
    have htarget : clickAction (ClickEvent.mk (some data)) = .ok "/" := by
      rcases h with h | h
      · simp [clickAction, member, h, orString_none]
      · simp [clickAction, member, h, orString_empty]
    exact ⟨htarget, by rw [onNotificationClick_of_target _ _ _ _ htarget]⟩
  · have htarget : clickAction (ClickEvent.mk (some data))
        = .ok (orString (data.prop "click_action") "/") := by
      simp [clickAction, member]
    rw [onNotificationClick_of_target _ _ _ _ htarget]
    exact onClientList_result _ _ _

/-- Witness for C4: data with `click_action` set to `/machines/3`, and data
without the field. -/
theorem click_target_extraction_witness :
    clickAction (ClickEvent.mk (some [("click_action", "/machines/3")])) = .ok "/machines/3"
    ∧ clickAction (ClickEvent.mk (some [("machine_id", "m3")])) = .ok "/" :=
  ⟨((click_target_extraction [("click_action", "/machines/3")] true []).1
      "/machines/3" (by decide) (by decide)).1,
   ((click_target_extraction [("machine_id", "m3")] true []).2.1 (Or.inl (by decide))).1⟩

/-! ## Background message handler -/

/-- The handler shows exactly the notification built from the payload. -/
theorem shownNotifications_onBackgroundMessage {ρ : Type}
    (showNotification : String → NotificationOptions → ρ) (payload : Payload) :
    shownNotifications (onBackgroundMessage showNotification payload).calls
      = [(notificationTitle payload, notificationOptions payload)] := rfl

/-- C5, as stated, fails.  A payload whose notification title is present and is
the empty string is shown under the fallback title, not under its own title. -/
theorem background_title_counterexample :
    (shownNotifications (onBackgroundMessage (fun _ _ => ())
        (Payload.mk (some (NotificationPayload.mk (some "") (some "Machine 3"))) none)).calls).map
        Prod.fst = ["알림"]
    ∧ (shownNotifications (onBackgroundMessage (fun _ _ => ())
        (Payload.mk (some (NotificationPayload.mk (some "") (some "Machine 3"))) none)).calls).map
        Prod.fst ≠ [""] := by
  refine ⟨?_, ?_⟩ <;> decide

/-- C5, amended: for every payload whose notification title is present and not
the empty string, the title passed to show-notification equals that title; for
every payload whose notification block or title is absent, or whose title is the
empty string, it equals the fallback string `알림`. -/
theorem background_title {ρ : Type} (showNotification : String → NotificationOptions → ρ)
    (payload : Payload) :
    (∀ block t, payload.notification = some block → block.title = some t → t ≠ "" →
        (shownNotifications (onBackgroundMessage showNotification payload).calls).map Prod.fst
          = [t])
    ∧ ((payload.notification = none
          ∨ ∃ block, payload.notification = some block
              ∧ (block.title = none ∨ block.title = some "")) →
        (shownNotifications (onBackgroundMessage showNotification payload).calls).map Prod.fst
          = ["알림"]) := by
  rw [shownNotifications_onBackgroundMessage]
  refine ⟨?_, ?_⟩
  · intro block t hblock htitle hne
    simp [notificationTitle, hblock, htitle, orString_of_ne_empty t _ hne]
  · rintro (hblock | ⟨block, hblock, htitle | htitle⟩)
    · simp [notificationTitle, hblock, orString_none]
    · simp [notificationTitle, hblock, htitle, orString_none]
    · simp [notificationTitle, hblock, htitle, orString_empty]

/-- Witness for C5: the payload with title `Laundry done`, and the payload with
an empty data mapping and no notification block. -/
theorem background_title_witness :
    (shownNotifications (onBackgroundMessage (fun _ _ => ())
        (Payload.mk (some (NotificationPayload.mk (some "Laundry done") (some "Machine 3")))
          (some [("machine_id", "m3"), ("click_action", "/machines/3")]))).calls).map Prod.fst
      = ["Laundry done"]
    ∧ (shownNotifications (onBackgroundMessage (fun _ _ => ())
        (Payload.mk none (some []))).calls).map Prod.fst = ["알림"] :=
  ⟨(background_title (fun _ _ => ())
      (Payload.mk (some (NotificationPayload.mk (some "Laundry done") (some "Machine 3")))
        (some [("machine_id", "m3"), ("click_action", "/machines/3")]))).1
      (NotificationPayload.mk (some "Laundry done") (some "Machine 3")) "Laundry done"
      rfl rfl (by decide),
   (background_title (fun _ _ => ()) (Payload.mk none (some []))).2 (Or.inl rfl)⟩

/-- C6, as stated, fails.  A payload whose data has `machine_id` present with the
empty string as its value is shown under the fallback tag, not under the field. -/
theorem background_tag_counterexample :
    optMember (Payload.mk none (some [("machine_id", "")])).data "machine_id" = some ""
    ∧ (shownNotifications (onBackgroundMessage (fun _ _ => ())
        (Payload.mk none (some [("machine_id", "")]))).calls).map (fun shown => shown.2.tag)
        = ["default"]
    ∧ (shownNotifications (onBackgroundMessage (fun _ _ => ())
        (Payload.mk none (some [("machine_id", "")]))).calls).map (fun shown => shown.2.tag)
        ≠ [""] := by
  refine ⟨?_, ?_, ?_⟩ <;> decide

/-- C6, amended: for every payload, the tag of the shown notification equals
`data.machine_id` when that field is present and not the empty string, and
equals the fallback tag `default` when the data mapping or the field is absent
or the field is the empty string. -/
theorem background_tag {ρ : Type} (showNotification : String → NotificationOptions → ρ)
    (payload : Payload) :
    (∀ data m, payload.data = some data → data.prop "machine_id" = some m → m ≠ "" →
        (shownNotifications (onBackgroundMessage showNotification payload).calls).map
          (fun shown => shown.2.tag) = [m])
    ∧ ((payload.data = none
          ∨ ∃ data, payload.data = some data
              ∧ (data.prop "machine_id" = none ∨ data.prop "machine_id" = some "")) →
        (shownNotifications (onBackgroundMessage showNotification payload).calls).map
          (fun shown => shown.2.tag) = ["default"]) := by
  rw [shownNotifications_onBackgroundMessage]
  refine ⟨?_, ?_⟩
  · intro data m hdata hfield hne
    simp [notificationOptions, optMember, hdata, hfield, orString_of_ne_empty m _ hne]
  · rintro (hdata | ⟨data, hdata, hfield | hfield⟩)
    · simp [notificationOptions, optMember, hdata, orString_none]
    · simp [notificationOptions, optMember, hdata, hfield, orString_none]
    · simp [notificationOptions, optMember, hdata, hfield, orString_empty]

/-- Witness for C6: the payload with `machine_id` set to `m3`, and the payload
with an empty data mapping. -/
theorem background_tag_witness :
    (shownNotifications (onBackgroundMessage (fun _ _ => ())
        (Payload.mk none (some [("machine_id", "m3"), ("click_action", "/machines/3")]))).calls).map
        (fun shown => shown.2.tag) = ["m3"]
    ∧ (shownNotifications (onBackgroundMessage (fun _ _ => ())
        (Payload.mk none (some []))).calls).map (fun shown => shown.2.tag) = ["default"] :=
  ⟨(background_tag (fun _ _ => ())
      (Payload.mk none (some [("machine_id", "m3"), ("click_action", "/machines/3")]))).1
      [("machine_id", "m3"), ("click_action", "/machines/3")] "m3" rfl (by decide) (by decide),
   (background_tag (fun _ _ => ()) (Payload.mk none (some []))).2
      (Or.inr ⟨[], rfl, Or.inl (by decide)⟩)⟩

/-- C7: for every payload whose notification body is present, the body of the
shown notification equals that value; for every payload whose notification block
or body is absent, it equals the empty string. -/
theorem background_body {ρ : Type} (showNotification : String → NotificationOptions → ρ)
    (payload : Payload) :
    (∀ block b, payload.notification = some block → block.body = some b →
        (shownNotifications (onBackgroundMessage showNotification payload).calls).map
          (fun shown => shown.2.body) = [b])
    ∧ ((payload.notification = none
          ∨ ∃ block, payload.notification = some block ∧ block.body = none) →
        (shownNotifications (onBackgroundMessage showNotification payload).calls).map
          (fun shown => shown.2.body) = [""]) := by
  rw [shownNotifications_onBackgroundMessage]
  refine ⟨?_, ?_⟩
  · intro block b hblock hbody
    by_cases hb : b = ""
    · subst hb
      simp [notificationOptions, hblock, hbody, orString_empty]
    · simp [notificationOptions, hblock, hbody, orString_of_ne_empty b _ hb]
  · rintro (hblock | ⟨block, hblock, hbody⟩)
    · simp [notificationOptions, hblock, orString_none]
    · simp [notificationOptions, hblock, hbody, orString_none]

/-- Witness for C7: the payload with body `Machine 3`, the payload whose body is
present and empty, and the payload without a notification block. -/
theorem background_body_witness :
    (shownNotifications (onBackgroundMessage (fun _ _ => ())
        (Payload.mk (some (NotificationPayload.mk (some "Laundry done") (some "Machine 3")))
          none)).calls).map (fun shown => shown.2.body) = ["Machine 3"]
    ∧ (shownNotifications (onBackgroundMessage (fun _ _ => ())
        (Payload.mk (some (NotificationPayload.mk none (some ""))) none)).calls).map
        (fun shown => shown.2.body) = [""]
    ∧ (shownNotifications (onBackgroundMessage (fun _ _ => ())
        (Payload.mk none (some []))).calls).map (fun shown => shown.2.body) = [""] :=
  ⟨(background_body (fun _ _ => ())
      (Payload.mk (some (NotificationPayload.mk (some "Laundry done") (some "Machine 3")))
        none)).1 (NotificationPayload.mk (some "Laundry done") (some "Machine 3")) "Machine 3"
      rfl rfl,
   (background_body (fun _ _ => ())
      (Payload.mk (some (NotificationPayload.mk none (some ""))) none)).1
      (NotificationPayload.mk none (some "")) "" rfl rfl,
   (background_body (fun _ _ => ()) (Payload.mk none (some []))).2 (Or.inl rfl)⟩

/-- C9: for every payload of the documented shape, the handler throws nothing and
makes exactly one show-notification call, whose result it returns. -/
theorem background_shows_exactly_one {ρ : Type}
    (showNotification : String → NotificationOptions → ρ) (payload : Payload) :
    ∃ title options,
      shownNotifications (onBackgroundMessage showNotification payload).calls
        = [(title, options)]
      ∧ (onBackgroundMessage showNotification payload).result
        = .ok (showNotification title options) :=
  ⟨notificationTitle payload, notificationOptions payload, rfl, rfl⟩

/-! ## From the payload to the click -/

/-- C8, as stated, fails.  For the payload whose data has `click_action` present
with the empty string as its value, the click on the notification the handler
shows is routed to `/`, not to the field: with no window open and window opening
supported, the window is opened at `/`. -/
theorem handoff_counterexample :
    optMember (Payload.mk none (some [("click_action", "")])).data "click_action" = some ""
    ∧ shownNotifications (onBackgroundMessage (fun _ _ => ())
        (Payload.mk none (some [("click_action", "")]))).calls
        = [("알림", notificationOptions (Payload.mk none (some [("click_action", "")])))]
    ∧ windowActions (onNotificationClick true []
        (clickEventOf (notificationOptions (Payload.mk none (some [("click_action", "")]))))).calls
        = [PlatformCall.openWindow "/"] := by
  refine ⟨?_, ?_, ?_⟩ <;> decide

/-- C8, amended: for every payload, the data attached to the notification the
background handler shows is the payload's data mapping (the empty mapping when
the payload has none); the click on that notification throws nothing, and it is
routed to the payload's `data.click_action` when that field is present and not
the empty string, and to `/` otherwise: with `t` that target, the listener logs,
closes the notification, enumerates the windows and then focuses the first
window whose URL contains `t` and which has the focus capability, or, when there
is none, opens a window at `t` if window opening is supported and does nothing
more if it is not; for the payload with an empty data mapping, no window URL
containing `/` and window opening supported, the listener opens a new window at
`/`. -/
theorem handoff_data_and_target {ρ : Type}
    (showNotification : String → NotificationOptions → ρ) (payload : Payload)
    (openWindowSupported : Bool) (clients : List WindowClient)
    (title : String) (options : NotificationOptions)
    (hshown : (title, options)
      ∈ shownNotifications (onBackgroundMessage showNotification payload).calls) :
    (∀ data, payload.data = some data → options.data = data)
    ∧ (payload.data = none → options.data = [])
    ∧ (onNotificationClick openWindowSupported clients (clickEventOf options)).result = .ok ()
    ∧ (∀ t, optMember payload.data "click_action" = some t → t ≠ "" →
        clickAction (clickEventOf options) = .ok t
        ∧ (∀ i, clients.findIdx? (fun w => includes w.url t && w.hasFocus) = some i →
            (onNotificationClick openWindowSupported clients (clickEventOf options)).calls
              = [PlatformCall.consoleLog "[firebase-messaging-sw.js] 알림 클릭:",
                 PlatformCall.closeNotification,
                 PlatformCall.matchAll "window" true,
                 PlatformCall.focus i])
        ∧ (clients.findIdx? (fun w => includes w.url t && w.hasFocus) = none →
            (onNotificationClick openWindowSupported clients (clickEventOf options)).calls
              = [PlatformCall.consoleLog "[firebase-messaging-sw.js] 알림 클릭:",
                 PlatformCall.closeNotification,
                 PlatformCall.matchAll "window" true]
                ++ (if openWindowSupported then [PlatformCall.openWindow t] else [])))
    ∧ ((optMember payload.data "click_action" = none
          ∨ optMember payload.data "click_action" = some "") →
        clickAction (clickEventOf options) = .ok "/"
        ∧ (∀ i, clients.findIdx? (fun w => includes w.url "/" && w.hasFocus) = some i →
            (onNotificationClick openWindowSupported clients (clickEventOf options)).calls
              = [PlatformCall.consoleLog "[firebase-messaging-sw.js] 알림 클릭:",
                 PlatformCall.closeNotification,
                 PlatformCall.matchAll "window" true,
                 PlatformCall.focus i])
        ∧ (clients.findIdx? (fun w => includes w.url "/" && w.hasFocus) = none →
            (onNotificationClick openWindowSupported clients (clickEventOf options)).calls
              = [PlatformCall.consoleLog "[firebase-messaging-sw.js] 알림 클릭:",
                 PlatformCall.closeNotification,
                 PlatformCall.matchAll "window" true]
                ++ (if openWindowSupported then [PlatformCall.openWindow "/"] else [])))
    ∧ (payload.data = some [] → openWindowSupported = true →
        (∀ w ∈ clients, includes w.url "/" = false) →
        windowActions (onNotificationClick openWindowSupported clients
          (clickEventOf options)).calls = [PlatformCall.openWindow "/"]) := by
  rw [shownNotifications_onBackgroundMessage] at hshown
  obtain ⟨-, rfl⟩ : title = notificationTitle payload ∧ options = notificationOptions payload := by
    simpa using hshown
  have htarget : clickAction (clickEventOf (notificationOptions payload))
      = .ok (orString (optMember payload.data "click_action") "/") := by
    cases hdata : payload.data <;>
      simp [clickAction, clickEventOf, notificationOptions, orEmptyObject, member, optMember,
        DataMap.prop, hdata]
  refine ⟨?_, ?_, ?_, ?_, ?_, ?_⟩
  · intro data hdata
    simp [notificationOptions, orEmptyObject, hdata]
  · intro hdata
    simp [notificationOptions, orEmptyObject, hdata]
  · rw [onNotificationClick_of_target _ _ _ _ htarget]
    exact onClientList_result _ _ _
  · intro t ht hne
    have hroute : clickAction (clickEventOf (notificationOptions payload)) = .ok t := by
      rw [htarget, ht, orString_of_ne_empty t _ hne]
    exact ⟨hroute,
      fun i hi => onNotificationClick_calls_of_some _ _ _ _ _ hroute hi,
      fun hnone => onNotificationClick_calls_of_none _ _ _ _ hroute hnone⟩
  · intro h
    have hroute : clickAction (clickEventOf (notificationOptions payload)) = .ok "/" := by
      rcases h with h | h
      · rw [htarget, h, orString_none]
      · rw [htarget, h, orString_empty]
    exact ⟨hroute,
      fun i hi => onNotificationClick_calls_of_some _ _ _ _ _ hroute hi,
      fun hnone => onNotificationClick_calls_of_none _ _ _ _ hroute hnone⟩
  · intro hdata hopen hnone
    have hroot : clickAction (clickEventOf (notificationOptions payload)) = .ok "/" := by
      rw [htarget, hdata]; rfl
    have hscan : focusScan "/" clients 0 = none :=
      focusScan_eq_none "/" clients 0 (fun w hw => by simp [hnone w hw])
    rw [onNotificationClick_of_target _ _ _ _ hroot, hopen]
    simp [onClientList, hscan, windowActions]

/-- Witness for C8: the payload with `click_action` set to `/machines/3`, clicked
with a focusable window at that page behind a window at another page: handle 1
is focused; clicked with only the other window open: a window is opened at
`/machines/3`; and the payload with an empty data mapping and no notification
block, clicked with no window open: a window is opened at `/`. -/
theorem handoff_data_and_target_witness :
    (onNotificationClick true
        [WindowClient.mk "https://app.example/home" true,
         WindowClient.mk "https://app.example/machines/3" true]
        (clickEventOf (notificationOptions
          (Payload.mk none (some [("machine_id", "m3"), ("click_action", "/machines/3")]))))).calls
      = [PlatformCall.consoleLog "[firebase-messaging-sw.js] 알림 클릭:",
         PlatformCall.closeNotification,
         PlatformCall.matchAll "window" true,
         PlatformCall.focus 1]
    ∧ (onNotificationClick true
        [WindowClient.mk "https://app.example/home" true]
        (clickEventOf (notificationOptions
          (Payload.mk none (some [("machine_id", "m3"), ("click_action", "/machines/3")]))))).calls
      = [PlatformCall.consoleLog "[firebase-messaging-sw.js] 알림 클릭:",
         PlatformCall.closeNotification,
         PlatformCall.matchAll "window" true,
         PlatformCall.openWindow "/machines/3"]
    ∧ (notificationOptions (Payload.mk none (some []))).data = []
    ∧ windowActions (onNotificationClick true []
        (clickEventOf (notificationOptions (Payload.mk none (some []))))).calls
      = [PlatformCall.openWindow "/"] :=
  ⟨((handoff_data_and_target (fun _ _ => ())
      (Payload.mk none (some [("machine_id", "m3"), ("click_action", "/machines/3")])) true
      [WindowClient.mk "https://app.example/home" true,
       WindowClient.mk "https://app.example/machines/3" true]
      "알림" (notificationOptions
        (Payload.mk none (some [("machine_id", "m3"), ("click_action", "/machines/3")])))
      (by decide)).2.2.2.1 "/machines/3" (by decide) (by decide)).2.1 1 (by decide),
   (((handoff_data_and_target (fun _ _ => ())
      (Payload.mk none (some [("machine_id", "m3"), ("click_action", "/machines/3")])) true
      [WindowClient.mk "https://app.example/home" true]
      "알림" (notificationOptions
        (Payload.mk none (some [("machine_id", "m3"), ("click_action", "/machines/3")])))
      (by decide)).2.2.2.1 "/machines/3" (by decide) (by decide)).2.2 (by decide)).trans rfl,
   (handoff_data_and_target (fun _ _ => ()) (Payload.mk none (some [])) true []
      "알림" (notificationOptions (Payload.mk none (some []))) (by decide)).1 [] rfl,
   (handoff_data_and_target (fun _ _ => ()) (Payload.mk none (some [])) true []
      "알림" (notificationOptions (Payload.mk none (some []))) (by decide)).2.2.2.2.2
      rfl rfl (by decide)⟩

end WashCall
